import Mathlib

/-
  Verification development for the Elasticsearch-backed span storage engine
  of a distributed-tracing backend (span reader: query building, index name
  resolution, tag normalization, paginated trace reading, validation).

  The repository ships the reader's test suite; the reader implementation
  itself is not part of the checked-out sources, so the operational
  definitions below are modelled from the specification (and, where the
  specification is silent, from the concrete expectations pinned by the
  in-repo tests).  Times are modelled as integers counting microseconds
  since the Unix epoch; Go durations as integer nanoseconds.
-/

set_option maxRecDepth 4096

/-- Microseconds from the Go zero time (January 1, year 1, 00:00:00 UTC)
to the Unix epoch is 62135596800 seconds; the Go zero `time.Time` therefore
sits at this (negative) microsecond offset from the epoch. -/
def goZeroTimeMicros : Int := -62135596800000000

/-- Modelled from the spec: a Go `time.Time` is abstracted to its
microseconds-since-epoch value; `IsZero` holds exactly at the Go zero time. -/
abbrev timeIsZero (t : Int) : Prop := t = goZeroTimeMicros

/-- Modelled from the spec: (§3): the closed tag value-type discriminator
`{string, bool, int64, float64, binary}` used by the document model. -/
inductive ValueType where
  | stringType
  | boolType
  | int64Type
  | float64Type
  | binaryType
deriving DecidableEq, Repr

/-- Modelled from the spec: (§4.2, §9): dynamic (`any`-typed) tag values as
they can appear in the raw tag maps of a stored document.  Go `float64`
values are abstracted to their numeric (rational) value — no claim in scope
exercises floating-point rounding.  `vJsonNumber` carries the wire string of
an `encoding/json` `json.Number`; `vUnsupported` carries the rendered form
of a value of any other dynamic type. -/
inductive TagValue where
  | vStr (s : String)
  | vBool (b : Bool)
  | vInt64 (i : Int)
  | vFloat64 (q : ℚ)
  | vBinary (bs : List Nat)
  | vJsonNumber (s : String)
  | vUnsupported (rendered : String)
deriving DecidableEq, Repr

/-- Modelled from the spec: (§3): one canonical tag — a (key, type, value)
triple, mirroring `dbmodel.KeyValue`. -/
structure KeyValue where
  key : String
  vtype : ValueType
  value : TagValue
deriving DecidableEq, Repr

/-- Modelled from the spec: (§3): the embedded process of a span — service
name, canonical tag sequence `tags`, and the transient raw tag map `tag`
(association list standing for the dotted-flattened `map[string]any`). -/
structure Process where
  serviceName : String
  tags : List KeyValue
  tag : List (String × TagValue)
deriving DecidableEq, Repr

/-- Modelled from the spec: (§3): the document unit `dbmodel.Span`.  Log
entries and span references are omitted: no claim in scope mentions them.
`startTime` is microseconds since the Unix epoch. -/
structure Span where
  traceID : String
  spanID : String
  operationName : String
  startTime : Int
  duration : Int
  tags : List KeyValue
  tag : List (String × TagValue)
  process : Process
deriving DecidableEq, Repr

/-- Modelled from the spec: (§3): a trace is the discovery-ordered sequence
of spans returned for one trace identifier. -/
structure Trace where
  spans : List Span
deriving DecidableEq, Repr

/-- Modelled from the spec: (§3): `dbmodel.TraceQueryParameters`.  Tag
filters are an association list (the Go map, in filter-map order); duration
bounds are Go `time.Duration` nanoseconds; start-time bounds are
microseconds since epoch. -/
structure TraceQueryParameters where
  serviceName : String
  operationName : String
  tags : List (String × String)
  startTimeMin : Int
  startTimeMax : Int
  durationMin : Int
  durationMax : Int
  numTraces : Nat
deriving DecidableEq, Repr

/-- Modelled from the spec: (§4.4, §7): the validation error taxonomy of the
query validator. -/
inductive ValidationErr where
  | ErrServiceNameNotSet
  | ErrStartAndEndTimeNotSet
  | ErrStartTimeMinGreaterThanMax
  | ErrDurationMinGreaterThanMax
deriving DecidableEq, Repr

/-- Modelled from the spec: (§4.4): `validateQuery` — fails with
`ServiceNameNotSet` if the service name is empty; `StartAndEndTimeNotSet`
if either time bound is the zero value; `StartTimeMinGreaterThanMax` if
min > max; `DurationMinGreaterThanMax` analogously; otherwise succeeds.
Checked before any query is issued. -/
def validateQuery (p : TraceQueryParameters) : Option ValidationErr :=
  if p.serviceName = "" then
    some ValidationErr.ErrServiceNameNotSet
  else if timeIsZero p.startTimeMin ∨ timeIsZero p.startTimeMax then
    some ValidationErr.ErrStartAndEndTimeNotSet
  else if p.startTimeMax < p.startTimeMin then
    some ValidationErr.ErrStartTimeMinGreaterThanMax
  else if p.durationMax < p.durationMin then
    some ValidationErr.ErrDurationMinGreaterThanMax
  else
    none

/-- C4: validateQuery, run before any search is issued, returns
ErrServiceNameNotSet exactly when the service name is empty; otherwise
ErrStartAndEndTimeNotSet exactly when either start-time bound is the zero
value; otherwise ErrStartTimeMinGreaterThanMax exactly when
StartTimeMin > StartTimeMax; otherwise ErrDurationMinGreaterThanMax exactly
when DurationMin > DurationMax; otherwise nil. -/
theorem validateQuery_cascade (p : TraceQueryParameters) :
    (validateQuery p = some ValidationErr.ErrServiceNameNotSet ↔ p.serviceName = "") ∧
    (p.serviceName ≠ "" →
      (validateQuery p = some ValidationErr.ErrStartAndEndTimeNotSet ↔
        (timeIsZero p.startTimeMin ∨ timeIsZero p.startTimeMax))) ∧
    (p.serviceName ≠ "" → ¬ timeIsZero p.startTimeMin → ¬ timeIsZero p.startTimeMax →
      (validateQuery p = some ValidationErr.ErrStartTimeMinGreaterThanMax ↔
        p.startTimeMax < p.startTimeMin)) ∧
    (p.serviceName ≠ "" → ¬ timeIsZero p.startTimeMin → ¬ timeIsZero p.startTimeMax →
      p.startTimeMin ≤ p.startTimeMax →
      (validateQuery p = some ValidationErr.ErrDurationMinGreaterThanMax ↔
        p.durationMax < p.durationMin)) ∧
    (p.serviceName ≠ "" → ¬ timeIsZero p.startTimeMin → ¬ timeIsZero p.startTimeMax →
      p.startTimeMin ≤ p.startTimeMax → p.durationMin ≤ p.durationMax →
      validateQuery p = none) := by
  unfold validateQuery
  split_ifs with h1 h2 h3 h4
  · exact ⟨by simp [h1], fun hs => absurd h1 hs, fun hs _ _ => absurd h1 hs,
      fun hs _ _ _ => absurd h1 hs, fun hs _ _ _ _ => absurd h1 hs⟩
  · refine ⟨by simp [h1], fun _ => by simp [h2], ?_, ?_, ?_⟩
    · intro _ hmin hmax; exact absurd h2 (by intro h; cases h <;> simp_all)
    · intro _ hmin hmax _; exact absurd h2 (by intro h; cases h <;> simp_all)
    · intro _ hmin hmax _ _; exact absurd h2 (by intro h; cases h <;> simp_all)
  · refine ⟨by simp [h1], ?_, fun _ _ _ => by simp [h3], ?_, ?_⟩
    · intro _
      exact ⟨fun h => by simp at h, fun hz => absurd hz h2⟩
    · intro _ _ _ hse; exact absurd h3 (by omega)
    · intro _ _ _ hse _; exact absurd h3 (by omega)
  · refine ⟨by simp [h1], ?_, ?_, fun _ _ _ _ => by simp [h4], ?_⟩
    · intro _
      exact ⟨fun h => by simp at h, fun hz => absurd hz h2⟩
    · intro _ _ _
      exact ⟨fun h => by simp at h, fun hlt => absurd hlt h3⟩
    · intro _ _ _ _ hd; exact absurd h4 (by omega)
  · refine ⟨by simp [h1], ?_, ?_, ?_, fun _ _ _ _ _ => rfl⟩
    · intro _
      exact ⟨fun h => by simp at h, fun hz => absurd hz h2⟩
    · intro _ _ _
      exact ⟨fun h => by simp at h, fun hlt => absurd hlt h3⟩
    · intro _ _ _ _
      exact ⟨fun h => by simp at h, fun hd => absurd hd h4⟩

/-- Concrete instantiation of the validation cascade: the empty service
name is rejected with ErrServiceNameNotSet, and a fully well-formed query
validates with no error. -/
theorem validateQuery_cascade_witness :
    validateQuery { serviceName := "", operationName := "", tags := [],
                    startTimeMin := 0, startTimeMax := 0,
                    durationMin := 0, durationMax := 0, numTraces := 0 } =
      some ValidationErr.ErrServiceNameNotSet ∧
    validateQuery { serviceName := "s", operationName := "o", tags := [],
                    startTimeMin := 1000000, startTimeMax := 2000000,
                    durationMin := 0, durationMax := 0, numTraces := 20 } = none := by
  constructor
  · exact (validateQuery_cascade _).1.mpr rfl
  · exact (validateQuery_cascade _).2.2.2.2 (by decide) (by decide) (by decide)
      (by decide) (by decide)

/-- Accumulate a decimal digit list into a number; fails on any non-digit.
An empty list yields 0 (callers enforce non-emptiness where Go does). -/
def digitsToNat? (cs : List Char) : Option Nat :=
  cs.foldl
    (fun acc c =>
      match acc with
      | none => none
      | some n => if c.isDigit then some (10 * n + (c.toNat - 48)) else none)
    (some 0)

/-- Modelled from the spec: (§4.2): the integer parse attempted on a wire
numeric value (Go `json.Number.Int64`, i.e. `strconv.ParseInt(s, 10, 64)`):
an optional sign followed by at least one decimal digit, within the int64
range. -/
def parseGoInt64 (s : String) : Option Int :=
  match s.data with
  | [] => none
  | c :: cs =>
    let signed := if c = '-' then (true, cs) else if c = '+' then (false, cs) else (false, c :: cs)
    if signed.2.isEmpty then none
    else
      match digitsToNat? signed.2 with
      | none => none
      | some n =>
        let v : Int := if signed.1 then -(n : Int) else (n : Int)
        if v < -(9223372036854775808 : Int) ∨ (9223372036854775807 : Int) < v then none
        else some v

/-- Split a character list at the first exponent marker, if any. -/
def splitAtExp : List Char → List Char × Option (List Char)
  | [] => ([], none)
  | c :: cs =>
    if c = 'e' ∨ c = 'E' then ([], some cs)
    else
      let r := splitAtExp cs
      (c :: r.1, r.2)

/-- Split a character list at the first decimal point, if any. -/
def splitAtDot : List Char → List Char × Option (List Char)
  | [] => ([], none)
  | c :: cs =>
    if c = '.' then ([], some cs)
    else
      let r := splitAtDot cs
      (c :: r.1, r.2)

/-- Modelled from the spec: (§4.2): the float parse attempted on a wire
numeric value (Go `json.Number.Float64`, i.e. `strconv.ParseFloat(s, 64)`),
restricted to the decimal syntax `sign? (digits [. digits?] | . digits)
(exp sign? digits)?`.  The parsed magnitude is kept as an exact rational:
no claim in scope observes float64 rounding. -/
def parseGoFloat (s : String) : Option ℚ :=
  match s.data with
  | [] => none
  | c0 :: cs0 =>
    let signed := if c0 = '-' then (true, cs0) else if c0 = '+' then (false, cs0) else (false, c0 :: cs0)
    let me := splitAtExp signed.2
    let ifr := splitAtDot me.1
    let fp := ifr.2.getD []
    if ifr.1.isEmpty ∧ fp.isEmpty then none
    else
      match digitsToNat? ifr.1, digitsToNat? fp with
      | some iv, some fv =>
        let mant : ℚ := (iv : ℚ) + (fv : ℚ) / ((10 : ℚ) ^ fp.length)
        let sm : ℚ := if signed.1 then -mant else mant
        match me.2 with
        | none => some sm
        | some ec =>
          match ec with
          | [] => none
          | e0 :: ecs =>
            let esigned := if e0 = '-' then (true, ecs) else if e0 = '+' then (false, ecs) else (false, e0 :: ecs)
            if esigned.2.isEmpty then none
            else
              match digitsToNat? esigned.2 with
              | none => none
              | some ev =>
                some (if esigned.1 then sm / ((10 : ℚ) ^ ev) else sm * ((10 : ℚ) ^ ev))
      | _, _ => none

/-- Modelled from the spec: (§4.2): reversing the configured delimiter
substitution in a raw tag key — every occurrence of the dot-replacement
character becomes a literal dot. -/
def replaceDotReplacement (dotRepl : Char) (k : String) : String :=
  String.mk (k.data.map (fun c => if c = dotRepl then '.' else c))

/-- Modelled from the spec: (§4.2): the per-entry type-coercion policy of
the tag normalizer, tried in order: boolean passthrough; int64 passthrough;
float64 passthrough (an integral-valued float64 is never coerced to int64);
string passthrough; byte-sequence passthrough; a wire numeric value parsed
first as an integer, then as a float, and otherwise stored as the
explanatory string `invalid tag type in <value>: <parse error>` with
string type; any other dynamic value stringified as
`invalid tag type in <value>`.  The delimiter substitution in the key is
reversed. -/
def convertTagField (dotRepl : Char) (k : String) (v : TagValue) : KeyValue :=
  let key := replaceDotReplacement dotRepl k
  match v with
  | TagValue.vBool b => ⟨key, ValueType.boolType, TagValue.vBool b⟩
  | TagValue.vInt64 i => ⟨key, ValueType.int64Type, TagValue.vInt64 i⟩
  | TagValue.vFloat64 q => ⟨key, ValueType.float64Type, TagValue.vFloat64 q⟩
  | TagValue.vStr s => ⟨key, ValueType.stringType, TagValue.vStr s⟩
  | TagValue.vBinary bs => ⟨key, ValueType.binaryType, TagValue.vBinary bs⟩
  | TagValue.vJsonNumber s =>
    match parseGoInt64 s with
    | some n => ⟨key, ValueType.int64Type, TagValue.vInt64 n⟩
    | none =>
      match parseGoFloat s with
      | some q => ⟨key, ValueType.float64Type, TagValue.vFloat64 q⟩
      | none =>
        ⟨key, ValueType.stringType,
          TagValue.vStr ("invalid tag type in " ++ s ++
            ": strconv.ParseFloat: parsing \"" ++ s ++ "\": invalid syntax")⟩
  | TagValue.vUnsupported r => ⟨key, ValueType.stringType, TagValue.vStr ("invalid tag type in " ++ r)⟩

/-- Modelled from the spec: (§4.2): tag consolidation on a span — the raw
tag map of the span and of its embedded process are each converted
entry-wise and appended after the respective pre-existing canonical tag
sequence, then both raw maps are cleared. -/
def mergeAllNestedAndElevatedTagsOfSpan (dotRepl : Char) (span : Span) : Span :=
  { span with
    tags := span.tags ++ span.tag.map (fun p => convertTagField dotRepl p.1 p.2)
    tag := []
    process := { span.process with
      tags := span.process.tags ++ span.process.tag.map (fun p => convertTagField dotRepl p.1 p.2)
      tag := [] } }

/-- The coercion never changes the (delimiter-reversed) key. -/
theorem convertTagField_key (d : Char) (k : String) (v : TagValue) :
    (convertTagField d k v).key = replaceDotReplacement d k := by
  cases v <;> simp only [convertTagField]
  case vJsonNumber s =>
    cases parseGoInt64 s <;> simp only []
    cases parseGoFloat s <;> simp only []

/-- C6: the tag-value coercion used during tag-map merging keeps any
float64 value as Float64 (never coercing an integral value to int64),
stores a wire number that parses as an integer as Int64, and stores a wire
number that parses neither as integer nor as float as the explanatory
string `invalid tag type in <value>: ...invalid syntax` with string
type. -/
theorem convertTagField_coercion (d : Char) (k : String) :
    (∀ q : ℚ, convertTagField d k (TagValue.vFloat64 q) =
      ⟨replaceDotReplacement d k, ValueType.float64Type, TagValue.vFloat64 q⟩) ∧
    (∀ s : String, ∀ n : Int, parseGoInt64 s = some n →
      convertTagField d k (TagValue.vJsonNumber s) =
        ⟨replaceDotReplacement d k, ValueType.int64Type, TagValue.vInt64 n⟩) ∧
    (∀ s : String, parseGoInt64 s = none → parseGoFloat s = none →
      convertTagField d k (TagValue.vJsonNumber s) =
        ⟨replaceDotReplacement d k, ValueType.stringType,
          TagValue.vStr ("invalid tag type in " ++ s ++
            ": strconv.ParseFloat: parsing \"" ++ s ++ "\": invalid syntax")⟩) := by
  refine ⟨fun q => rfl, ?_, ?_⟩
  · intro s n h
    simp only [convertTagField, h]
  · intro s h1 h2
    simp only [convertTagField, h1, h2]

/-- Concrete instantiation of the coercion policy at the literal scenarios:
float64 123 stays Float64, the wire number 123 becomes int64 123, and the
wire number foo becomes the explanatory invalid-syntax string. -/
theorem convertTagField_coercion_witness :
    convertTagField ':' "float" (TagValue.vFloat64 123) =
      ⟨replaceDotReplacement ':' "float", ValueType.float64Type, TagValue.vFloat64 123⟩ ∧
    parseGoInt64 "123" = some 123 ∧
    convertTagField ':' "json_number:int" (TagValue.vJsonNumber "123") =
      ⟨replaceDotReplacement ':' "json_number:int", ValueType.int64Type, TagValue.vInt64 123⟩ ∧
    convertTagField ':' "json_number:err" (TagValue.vJsonNumber "foo") =
      ⟨replaceDotReplacement ':' "json_number:err", ValueType.stringType,
        TagValue.vStr ("invalid tag type in " ++ "foo" ++
          ": strconv.ParseFloat: parsing \"" ++ "foo" ++ "\": invalid syntax")⟩ :=
  ⟨(convertTagField_coercion ':' "float").1 123,
   by decide,
   (convertTagField_coercion ':' "json_number:int").2.1 "123" 123 (by decide),
   (convertTagField_coercion ':' "json_number:err").2.2 "foo" (by decide) (by decide)⟩

/-- C7: after tag merging, the transient raw tag maps on the span and on
its embedded process are both empty, the merged tags are appended after the
pre-existing canonical tag sequence of the span and of its process
respectively (process tags merged independently), and the keys of the
merged entries have the configured dot-replacement delimiter reversed back
to a dot. -/
theorem mergeAllNestedAndElevatedTagsOfSpan_invariants (d : Char) (span : Span) :
    (mergeAllNestedAndElevatedTagsOfSpan d span).tag = [] ∧
    (mergeAllNestedAndElevatedTagsOfSpan d span).process.tag = [] ∧
    (mergeAllNestedAndElevatedTagsOfSpan d span).tags =
      span.tags ++ span.tag.map (fun p => convertTagField d p.1 p.2) ∧
    (mergeAllNestedAndElevatedTagsOfSpan d span).process.tags =
      span.process.tags ++ span.process.tag.map (fun p => convertTagField d p.1 p.2) ∧
    ((mergeAllNestedAndElevatedTagsOfSpan d span).tags.drop span.tags.length).map KeyValue.key =
      span.tag.map (fun p => replaceDotReplacement d p.1) ∧
    ((mergeAllNestedAndElevatedTagsOfSpan d span).process.tags.drop span.process.tags.length).map KeyValue.key =
      span.process.tag.map (fun p => replaceDotReplacement d p.1) := by
  refine ⟨rfl, rfl, rfl, rfl, ?_, ?_⟩
  · show ((span.tags ++ span.tag.map (fun p => convertTagField d p.1 p.2)).drop span.tags.length).map KeyValue.key = _
    rw [List.drop_left, List.map_map]
    exact List.map_congr_left (fun p _ => convertTagField_key d p.1 p.2)
  · show ((span.process.tags ++ span.process.tag.map (fun p => convertTagField d p.1 p.2)).drop span.process.tags.length).map KeyValue.key = _
    rw [List.drop_left, List.map_map]
    exact List.map_congr_left (fun p _ => convertTagField_key d p.1 p.2)

/-- Field-name constant: the trace identifier field of a span document. -/
def traceIDField : String := "traceID"

/-- Field-name constant: the start-time field of a span document. -/
def startTimeField : String := "startTime"

/-- Field-name constant: the millisecond start-time field of a span document. -/
def startTimeMillisField : String := "startTimeMillis"

/-- Field-name constant: the duration field of a span document. -/
def durationField : String := "duration"

/-- Field-name constant: the service-name field nested under process. -/
def serviceNameField : String := "process.serviceName"

/-- Field-name constant: the operation-name field of a span document. -/
def operationNameField : String := "operationName"

/-- Field-name constant: key sub-field of a nested tag object. -/
def tagKeyField : String := "key"

/-- Field-name constant: value sub-field of a nested tag object. -/
def tagValueField : String := "value"

/-- Modelled from the spec: (§4.4): the nested tag collections searched by a
tag clause — span tags, process tags and log fields. -/
def nestedTagFieldList : List String := ["tags", "process.tags", "logs.fields"]

/-- Aggregation-name constant for the distinct-services aggregation. -/
def servicesAggregation : String := "distinct_services"

/-- Aggregation-name constant for the distinct-operations aggregation. -/
def operationsAggregation : String := "distinct_operations"

/-- Aggregation-name constant for the trace-identifier aggregation. -/
def traceIDAggregation : String := "traceIDs"

/-- Modelled from the spec: (§4.4, §6): the abstract syntax of the boolean
search queries the query builder emits. -/
inductive ESQuery where
  | termQ (field value : String)
  | rangeQ (field : String) (gte lte : Int)
  | matchQ (field query : String)
  | regexpQ (field pattern : String)
  | nestedQ (path : String) (q : ESQuery)
  | boolMust (clauses : List ESQuery)
  | boolShould (clauses : List ESQuery)

/-- The clause list of a must-composition; any other query shape has none. -/
def ESQuery.mustClauses : ESQuery → List ESQuery
  | ESQuery.boolMust cs => cs
  | _ => []

/-- Go `time.Duration` nanoseconds to microseconds
(`model.DurationAsMicroseconds`). -/
def durationAsMicros (d : Int) : Int := d / 1000

/-- Microseconds since epoch to milliseconds, as used for the
`startTimeMillis` range bounds. -/
def microsToMillis (t : Int) : Int := t / 1000

/-- Modelled from the spec: (§4.4): the range clause on span duration in
microseconds. -/
def buildDurationQuery (durationMin durationMax : Int) : ESQuery :=
  ESQuery.rangeQ durationField (durationAsMicros durationMin) (durationAsMicros durationMax)

/-- Modelled from the spec: (§4.4): the range clause on span start time in
milliseconds. -/
def buildStartTimeQuery (startTimeMin startTimeMax : Int) : ESQuery :=
  ESQuery.rangeQ startTimeMillisField (microsToMillis startTimeMin) (microsToMillis startTimeMax)

/-- Modelled from the spec: (§4.4): the exact match clause on the service
name. -/
def buildServiceNameQuery (serviceName : String) : ESQuery :=
  ESQuery.matchQ serviceNameField serviceName

/-- Modelled from the spec: (§4.4): the match clause on the operation
name. -/
def buildOperationNameQuery (operationName : String) : ESQuery :=
  ESQuery.matchQ operationNameField operationName

/-- Regex metacharacters recognized when deciding between exact and regex
tag-value matching. -/
def regexChars : List Char := ['.', '*', '+', '?', '|', '(', ')', '[', ']', '\\'] ++ ['^', '$']

/-- A value containing an unescaped regex metacharacter is treated as a
regex pattern (a backslash-escaped asterisk stays literal). -/
def containsRegexMeta (v : String) : Bool :=
  v.data.any (fun c => regexChars.contains c)

/-- Unescape a literal asterisk: a backslash-asterisk pair becomes a plain
asterisk. -/
def unescapeStar : List Char → List Char
  | [] => []
  | '\\' :: '*' :: rest => '*' :: unescapeStar rest
  | c :: rest => c :: unescapeStar rest

/-- Modelled from the spec: (§4.4): one sub-clause of a tag clause — a
nested query over one tag collection whose inner must-composition matches
the key exactly and the value either exactly (literal values, with a
backslash-escaped asterisk unescaped) or as a regex pattern. -/
def buildNestedQuery (field k v : String) : ESQuery :=
  let keyField := field ++ "." ++ tagKeyField
  let valueField := field ++ "." ++ tagValueField
  let valueQuery :=
    if containsRegexMeta v ∧ v.data ≠ unescapeStar v.data then
      ESQuery.regexpQ valueField v
    else
      ESQuery.matchQ valueField (String.mk (unescapeStar v.data))
  ESQuery.nestedQ field (ESQuery.boolMust [ESQuery.matchQ keyField k, valueQuery])

/-- Modelled from the spec: (§4.4): the tag clause for one tag filter — a
should-composition of the nested sub-clauses over every tag collection. -/
def buildTagQuery (dotRepl : Char) (k v : String) : ESQuery :=
  ESQuery.boolShould (nestedTagFieldList.map (fun f => buildNestedQuery f (replaceDotReplacement dotRepl k) v))

/-- Modelled from the spec: (§4.4): `buildFindTraceIDsQuery` — the boolean
must-composition of: a duration range clause (included only if the duration
minimum is set), the start-time range clause (required), the service-name
match clause (required), the operation-name match clause (included only if
set), and one tag clause per tag filter in filter-map order. -/
def buildFindTraceIDsQuery (dotRepl : Char) (p : TraceQueryParameters) : ESQuery :=
  ESQuery.boolMust
    ((if p.durationMin ≠ 0 then [buildDurationQuery p.durationMin p.durationMax] else []) ++
     [buildStartTimeQuery p.startTimeMin p.startTimeMax,
      buildServiceNameQuery p.serviceName] ++
     (if p.operationName ≠ "" then [buildOperationNameQuery p.operationName] else []) ++
     p.tags.map (fun kv => buildTagQuery dotRepl kv.1 kv.2))

/-- C1: for every valid query (one that passes validateQuery), the find-
trace-ids query is a must composition whose clauses are, in order: the
duration range clause when duration bounds are set, the start-time range
clause, the service match clause, the operation match clause when the
operation name is set, then one tag clause per tag filter in filter-map
order; its clause count is 2 plus 1 for the operation, plus 1 for the
duration bounds, plus one per tag filter. -/
theorem buildFindTraceIDsQuery_shape (dotRepl : Char) (p : TraceQueryParameters)
    (hvalid : validateQuery p = none) :
    (buildFindTraceIDsQuery dotRepl p).mustClauses =
      (if p.durationMin ≠ 0 then [buildDurationQuery p.durationMin p.durationMax] else []) ++
      [buildStartTimeQuery p.startTimeMin p.startTimeMax,
       buildServiceNameQuery p.serviceName] ++
      (if p.operationName ≠ "" then [buildOperationNameQuery p.operationName] else []) ++
      p.tags.map (fun kv => buildTagQuery dotRepl kv.1 kv.2) ∧
    (buildFindTraceIDsQuery dotRepl p).mustClauses.length =
      2 + (if p.operationName ≠ "" then 1 else 0) + (if p.durationMin ≠ 0 then 1 else 0) +
        p.tags.length := by
  refine ⟨rfl, ?_⟩
  show ((if p.durationMin ≠ 0 then [buildDurationQuery p.durationMin p.durationMax] else []) ++
      [buildStartTimeQuery p.startTimeMin p.startTimeMax,
       buildServiceNameQuery p.serviceName] ++
      (if p.operationName ≠ "" then [buildOperationNameQuery p.operationName] else []) ++
      p.tags.map (fun kv => buildTagQuery dotRepl kv.1 kv.2)).length = _
  by_cases hd : p.durationMin ≠ 0 <;> by_cases ho : p.operationName ≠ "" <;>
    simp [hd, ho] <;> omega

/-- Concrete instantiation of the query shape: the test scenario (duration
1s to 2s, operation set, one tag filter) yields a 5-clause must composition
in the order duration, time, service, operation, tag. -/
theorem buildFindTraceIDsQuery_shape_witness :
    validateQuery { serviceName := "s", operationName := "o",
                    tags := [("hello", "world")],
                    startTimeMin := 1000000, startTimeMax := 2000000,
                    durationMin := 1000000000, durationMax := 2000000000,
                    numTraces := 20 } = none ∧
    (buildFindTraceIDsQuery '@'
      { serviceName := "s", operationName := "o",
        tags := [("hello", "world")],
        startTimeMin := 1000000, startTimeMax := 2000000,
        durationMin := 1000000000, durationMax := 2000000000,
        numTraces := 20 }).mustClauses =
      [buildDurationQuery 1000000000 2000000000,
       buildStartTimeQuery 1000000 2000000,
       buildServiceNameQuery "s",
       buildOperationNameQuery "o",
       buildTagQuery '@' "hello" "world"] ∧
    (buildFindTraceIDsQuery '@'
      { serviceName := "s", operationName := "o",
        tags := [("hello", "world")],
        startTimeMin := 1000000, startTimeMax := 2000000,
        durationMin := 1000000000, durationMax := 2000000000,
        numTraces := 20 }).mustClauses.length = 2 + 1 + 1 + 1 := by
  refine ⟨by decide, ?_, ?_⟩
  · have h := (buildFindTraceIDsQuery_shape '@'
      { serviceName := "s", operationName := "o",
        tags := [("hello", "world")],
        startTimeMin := 1000000, startTimeMax := 2000000,
        durationMin := 1000000000, durationMax := 2000000000,
        numTraces := 20 } (by decide)).1
    simpa using h
  · have h := (buildFindTraceIDsQuery_shape '@'
      { serviceName := "s", operationName := "o",
        tags := [("hello", "world")],
        startTimeMin := 1000000, startTimeMax := 2000000,
        durationMin := 1000000000, durationMax := 2000000000,
        numTraces := 20 } (by decide)).2
    simpa using h

/-- Modelled from the spec: (§4.4): a terms aggregation — bucketing field,
bucket count, optional descending order by a sub-aggregation, and an
optional named max sub-aggregation. -/
structure TermsAggregationSpec where
  field : String
  size : Nat
  orderDescBy : Option String
  maxSubAgg : Option (String × String)
deriving DecidableEq, Repr

/-- Modelled from the spec: (§4.6) and the in-repo tests: the top-level
search request body issued for an aggregation-driven search — the top-level
result size, the optional boolean query, and the named aggregations. -/
structure SearchBody where
  size : Nat
  query : Option ESQuery
  aggregations : List (String × TermsAggregationSpec)

/-- Modelled from the spec: (§4.4): `buildTraceIDAggregation` — a terms
aggregation on the trace-identifier field whose bucket count is the
requested trace count, ordered descending by the maximum start-time
sub-aggregation. -/
def buildTraceIDAggregation (numOfTraces : Nat) : TermsAggregationSpec :=
  { field := traceIDField
    size := numOfTraces
    orderDescBy := some startTimeField
    maxSubAgg := some (startTimeField, startTimeField) }

/-- Modelled from the spec: (§4.6) and the in-repo tests: the search body of
GetServices — top-level size 0, a terms aggregation on the service-name
field sized by the configured maximum document count. -/
def getServicesSearchBody (maxDocCount : Nat) : SearchBody :=
  { size := 0
    query := none
    aggregations := [(servicesAggregation,
      { field := serviceNameField, size := maxDocCount, orderDescBy := none, maxSubAgg := none })] }

/-- Modelled from the spec: (§4.6) and the in-repo tests: the search body of
GetOperations — top-level size 0, a query restricting to the requested
service, and a terms aggregation on the operation-name field sized by the
configured maximum document count. -/
def getOperationsSearchBody (maxDocCount : Nat) (service : String) : SearchBody :=
  { size := 0
    query := some (ESQuery.boolMust [ESQuery.matchQ serviceNameField service])
    aggregations := [(operationsAggregation,
      { field := operationNameField, size := maxDocCount, orderDescBy := none, maxSubAgg := none })] }

/-- Modelled from the spec: (§4.6): the search body of findTraceIDs —
top-level size 0, the find-trace-ids boolean query, and the trace-id terms
aggregation sized by the query's trace-count limit. -/
def findTraceIDsSearchBody (dotRepl : Char) (p : TraceQueryParameters) : SearchBody :=
  { size := 0
    query := some (buildFindTraceIDsQuery dotRepl p)
    aggregations := [(traceIDAggregation, buildTraceIDAggregation p.numTraces)] }

/-- C10: every aggregation-driven search (GetServices, GetOperations,
findTraceIDs) requests zero raw documents at the top level; the result
count limit appears only as the bucket size of the terms aggregation — the
configured MaxDocCount for services and operations, and the query's trace
count limit for the trace-id aggregation. -/
theorem aggregationSearch_size_zero (maxDocCount : Nat) (service : String)
    (dotRepl : Char) (p : TraceQueryParameters) :
    (getServicesSearchBody maxDocCount).size = 0 ∧
    ((getServicesSearchBody maxDocCount).aggregations.map (fun a => a.2.size)) = [maxDocCount] ∧
    (getOperationsSearchBody maxDocCount service).size = 0 ∧
    ((getOperationsSearchBody maxDocCount service).aggregations.map (fun a => a.2.size)) = [maxDocCount] ∧
    (findTraceIDsSearchBody dotRepl p).size = 0 ∧
    (findTraceIDsSearchBody dotRepl p).aggregations =
      [(traceIDAggregation, buildTraceIDAggregation p.numTraces)] ∧
    (buildTraceIDAggregation p.numTraces).size = p.numTraces :=
  ⟨rfl, rfl, rfl, rfl, rfl, rfl, rfl⟩

/-- Base name of the span index (per the in-repo tests, the daily span
index for 1995-04-21 is named jaeger-span-1995-04-21). -/
def spanIndexBaseName : String := "jaeger-span-"

/-- Base name of the service index. -/
def serviceIndexBaseName : String := "jaeger-service-"

/-- Microseconds in one day. -/
def microsPerDay : Int := 86400000000

/-- Civil date (year, month, day) from a count of days since 1970-01-01,
in the proleptic Gregorian calendar (the standard era-decomposition
algorithm). -/
def civilFromDays (z0 : Int) : Int × Nat × Nat :=
  let z := z0 + 719468
  let era : Int := Int.fdiv z 146097
  let doe : Nat := (z - era * 146097).toNat
  let yoe : Nat := (doe - doe / 1460 + doe / 36524 - doe / 146096) / 365
  let y : Int := (yoe : Int) + era * 400
  let doy : Nat := doe - (365 * yoe + yoe / 4 - yoe / 100)
  let mp : Nat := (5 * doy + 2) / 153
  let d : Nat := doy - (153 * mp + 2) / 5 + 1
  let m : Nat := if mp < 10 then mp + 3 else mp - 9
  (if m ≤ 2 then y + 1 else y, m, d)

/-- Left-pad a number with zeros to the given width. -/
def padLeftZeros (n : Nat) (width : Nat) : String :=
  let s := toString n
  if s.length < width then String.mk (List.replicate (width - s.length) '0') ++ s else s

/-- Modelled from the spec: (§4.3): the Go date layout 2006-01-02 (daily
granularity, UTC) applied to a microseconds-since-epoch instant. -/
def dateLayoutDaily (t : Int) : String :=
  let ymd := civilFromDays (Int.fdiv t microsPerDay)
  (if ymd.1 < 0 then "-" ++ padLeftZeros ymd.1.natAbs 4 else padLeftZeros ymd.1.toNat 4) ++
    "-" ++ padLeftZeros ymd.2.1 2 ++ "-" ++ padLeftZeros ymd.2.2 2

/-- Modelled from the spec: (§4.3): the bucket index name for one instant —
the base name followed by the formatted date. -/
def indexWithDate (indexName : String) (dateLayout : Int → String) (t : Int) : String :=
  indexName ++ dateLayout t

/-- Modelled from the spec: (§4.3): the bucket-enumeration loop of
timeRangeIndices — starting from the end time, emit the current bucket name
and step backward by the (negative) reduce duration until the start time's
bucket name is reached, which is emitted last.  The fuel argument bounds
the iteration (the Go loop carries no bound; the enclosing definition
supplies fuel sufficient for every window on which the loop terminates by
reaching the start bucket). -/
def timeRangeIndicesGo (indexName : String) (dateLayout : Int → String)
    (firstIndex : String) (reduceDuration : Int) : Nat → Int → List String
  | 0, _ => []
  | fuel + 1, endTime =>
    let currentIndex := indexWithDate indexName dateLayout endTime
    if currentIndex = firstIndex then [firstIndex]
    else currentIndex ::
      timeRangeIndicesGo indexName dateLayout firstIndex reduceDuration fuel (endTime + reduceDuration)

/-- Modelled from the spec: (§4.3): `timeRangeIndices` — one name per
rollover bucket spanning the window, iterating from the end time backward
to the start time. -/
def timeRangeIndices (indexName : String) (dateLayout : Int → String)
    (startTime endTime reduceDuration : Int) : List String :=
  timeRangeIndicesGo indexName dateLayout (indexWithDate indexName dateLayout startTime)
    reduceDuration ((endTime - startTime).natAbs / reduceDuration.natAbs + 2) endTime

/-- Modelled from the spec: (§4.3): remote-cluster federation — every
resolved name is additionally emitted once per remote cluster as
`clusterName ":" name`, preserving (local name, then each cluster name)
order per logical index. -/
def addRemoteReadClusters (indices remoteReadClusters : List String) : List String :=
  indices.flatMap (fun idx => idx :: remoteReadClusters.map (fun c => c ++ ":" ++ idx))

/-- Modelled from the spec: (§4.3): the effective read-alias suffix — `read`
by default, or the configured override; only meaningful in alias mode. -/
def readAliasSuffixOf (useReadWriteAliases : Bool) (readAliasSuffix : String) : String :=
  if useReadWriteAliases then (if readAliasSuffix = "" then "read" else readAliasSuffix) else ""

/-- Modelled from the spec: (§4.3): full index resolution — in alias mode a
single alias name (base name plus effective suffix) regardless of the
window; otherwise the time-bucketed enumeration; in both cases expanded per
remote read cluster. -/
def resolveIndices (useReadWriteAliases : Bool) (readAliasSuffix : String)
    (remoteReadClusters : List String) (indexName : String) (dateLayout : Int → String)
    (startTime endTime reduceDuration : Int) : List String :=
  if useReadWriteAliases then
    addRemoteReadClusters [indexName ++ readAliasSuffixOf true readAliasSuffix] remoteReadClusters
  else
    addRemoteReadClusters (timeRangeIndices indexName dateLayout startTime endTime reduceDuration)
      remoteReadClusters

/-- Appending the same string on the left preserves distinctness. -/
theorem string_append_right_ne (b : String) {x y : String} (h : x ≠ y) :
    b ++ x ≠ b ++ y := by
  intro hc
  apply h
  apply String.ext
  have hd : (b ++ x).data = (b ++ y).data := congrArg String.data hc
  simp only [String.data_append] at hd
  exact List.append_cancel_left hd

/-- One unfolding step of the bucket-enumeration loop. -/
theorem timeRangeIndicesGo_succ (b : String) (f : Int → String) (first : String)
    (step : Int) (fuel : Nat) (endT : Int) :
    timeRangeIndicesGo b f first step (fuel + 1) endT =
      if b ++ f endT = first then [first]
      else (b ++ f endT) :: timeRangeIndicesGo b f first step fuel (endT + step) := rfl

/-- Expansion over no remote clusters is the identity. -/
theorem addRemoteReadClusters_nil (l : List String) : addRemoteReadClusters l [] = l := by
  induction l with
  | nil => rfl
  | cons a t ih =>
    simp only [addRemoteReadClusters, List.flatMap_cons, List.map_nil] at *
    simp [ih]

/-- Expansion over two remote clusters: each local name is immediately
followed by that name prefixed by each cluster name and a colon, in
configured cluster order, tripling the sequence length. -/
theorem addRemoteReadClusters_two (c1 c2 : String) (l : List String) :
    addRemoteReadClusters l [c1, c2] =
      l.flatMap (fun n => [n, c1 ++ ":" ++ n, c2 ++ ":" ++ n]) ∧
    (addRemoteReadClusters l [c1, c2]).length = 3 * l.length := by
  refine ⟨rfl, ?_⟩
  induction l with
  | nil => rfl
  | cons a t ih =>
    simp only [addRemoteReadClusters, List.flatMap_cons, List.length_append] at ih ⊢
    simp only [List.map_cons, List.map_nil, List.length_cons, List.length_nil] at ih ⊢
    omega

/-- C3 (counterexample): with two remote read clusters the resolved
index-name sequence for one logical daily index has 3 entries, not 2 times
the non-federated count (which is 1). -/
theorem resolveIndices_two_clusters_not_doubled :
    ¬ ((resolveIndices false "" ["cluster_one", "cluster_two"]
          spanIndexBaseName dateLayoutDaily 0 0 (-86400000000)).length =
        2 * (resolveIndices false "" []
          spanIndexBaseName dateLayoutDaily 0 0 (-86400000000)).length) := by
  decide

/-- C3 (amended): with 2 remote read clusters, for every logical index the
resolved index-name sequence has length 3 times (that is, 1 plus the
cluster count times) the non-federated count, with each local name
immediately followed by that same name prefixed with each cluster name and
a colon, in configured cluster order. -/
theorem resolveIndices_federation (useRW : Bool) (suffix c1 c2 base : String)
    (f : Int → String) (s e step : Int) :
    resolveIndices useRW suffix [c1, c2] base f s e step =
      (resolveIndices useRW suffix [] base f s e step).flatMap
        (fun idx => [idx, c1 ++ ":" ++ idx, c2 ++ ":" ++ idx]) ∧
    (resolveIndices useRW suffix [c1, c2] base f s e step).length =
      3 * (resolveIndices useRW suffix [] base f s e step).length := by
  unfold resolveIndices
  split_ifs with h
  · rw [addRemoteReadClusters_nil]
    exact addRemoteReadClusters_two c1 c2 _
  · rw [addRemoteReadClusters_nil]
    exact addRemoteReadClusters_two c1 c2 _

/-- C9: in alias mode index resolution returns the single alias name
baseName plus read when no read-alias suffix is configured, and baseName
plus the suffix when one is configured, for every requested time window. -/
theorem resolveIndices_alias_mode (base : String) (f : Int → String)
    (s e step : Int) (suffix : String) (hs : suffix ≠ "") :
    resolveIndices true "" [] base f s e step = [base ++ "read"] ∧
    resolveIndices true suffix [] base f s e step = [base ++ suffix] := by
  constructor
  · simp [resolveIndices, readAliasSuffixOf, addRemoteReadClusters]
  · simp [resolveIndices, readAliasSuffixOf, hs, addRemoteReadClusters]

/-- Concrete instantiation of alias-mode resolution: the span index
resolves to jaeger-span-read with no suffix and to jaeger-span-archive with
the archive suffix, on a nonempty time window. -/
theorem resolveIndices_alias_mode_witness :
    resolveIndices true "" [] spanIndexBaseName dateLayoutDaily 0 500 (-86400000000) =
      [spanIndexBaseName ++ "read"] ∧
    resolveIndices true "archive" [] spanIndexBaseName dateLayoutDaily 0 500 (-86400000000) =
      [spanIndexBaseName ++ "archive"] :=
  ⟨(resolveIndices_alias_mode spanIndexBaseName dateLayoutDaily 0 500 (-86400000000)
      "archive" (by decide)).1,
   (resolveIndices_alias_mode spanIndexBaseName dateLayoutDaily 0 500 (-86400000000)
      "archive" (by decide)).2⟩

/-- C8: with the daily date layout, non-alias index resolution over the
window from 48 hours before an instant up to that instant returns exactly
three index names — for the end day, the previous day, and two days before,
in that order (one name per daily bucket, iterating from the end time
backward), provided the three daily buckets format distinctly (always true
for a calendar layout over a two-day step). -/
theorem timeRangeIndices_daily_48h_window (base : String) (t : Int)
    (h1 : dateLayoutDaily t ≠ dateLayoutDaily (t - 172800000000))
    (h2 : dateLayoutDaily (t - 86400000000) ≠ dateLayoutDaily (t - 172800000000)) :
    timeRangeIndices base dateLayoutDaily (t - 172800000000) t (-86400000000) =
      [base ++ dateLayoutDaily t,
       base ++ dateLayoutDaily (t - 86400000000),
       base ++ dateLayoutDaily (t - 172800000000)] ∧
    (timeRangeIndices base dateLayoutDaily (t - 172800000000) t (-86400000000)).length = 3 := by
  have hfuel : (t - (t - 172800000000)).natAbs / (-86400000000 : Int).natAbs + 2 = 4 := by
    have h : t - (t - 172800000000) = (172800000000 : Int) := by ring
    rw [h]
    decide
  have heq : timeRangeIndices base dateLayoutDaily (t - 172800000000) t (-86400000000) =
      [base ++ dateLayoutDaily t,
       base ++ dateLayoutDaily (t - 86400000000),
       base ++ dateLayoutDaily (t - 172800000000)] := by
    unfold timeRangeIndices
    rw [hfuel]
    simp only [indexWithDate]
    rw [show (4 : Nat) = 3 + 1 from rfl, timeRangeIndicesGo_succ,
      if_neg (string_append_right_ne base h1)]
    rw [show t + (-86400000000 : Int) = t - 86400000000 from by ring]
    rw [show (3 : Nat) = 2 + 1 from rfl, timeRangeIndicesGo_succ,
      if_neg (string_append_right_ne base h2)]
    rw [show t - 86400000000 + (-86400000000 : Int) = t - 172800000000 from by ring]
    rw [show (2 : Nat) = 1 + 1 from rfl, timeRangeIndicesGo_succ, if_pos rfl]
  exact ⟨heq, by rw [heq]; rfl⟩

/-- Concrete instantiation of the 48-hour window resolution at
1995-04-21T04:12:19Z: the span index resolves to the daily indices for
1995-04-21, 1995-04-20 and 1995-04-19, in that order. -/
theorem timeRangeIndices_daily_48h_window_witness :
    timeRangeIndices spanIndexBaseName dateLayoutDaily
        (798437539000000 - 172800000000) 798437539000000 (-86400000000) =
      ["jaeger-span-" ++ dateLayoutDaily 798437539000000,
       "jaeger-span-" ++ dateLayoutDaily (798437539000000 - 86400000000),
       "jaeger-span-" ++ dateLayoutDaily (798437539000000 - 172800000000)] :=
  (timeRangeIndices_daily_48h_window "jaeger-span-" 798437539000000
    (by decide) (by decide)).1

/-- Modelled from the spec: (§4.5, §6): one search response for a per-trace
query — the per-hit decode outcomes (a hit source either unmarshals to a
span document or fails with a malformed-document error; the JSON
unmarshalling itself is the external encoding library) and the reported
total hit count. -/
instance exceptDecEq {ε α : Type} [DecidableEq ε] [DecidableEq α] :
    DecidableEq (Except ε α) := fun a b =>
  match a, b with
  | Except.ok x, Except.ok y =>
    if h : x = y then Decidable.isTrue (by rw [h])
    else Decidable.isFalse (fun hc => h (Except.ok.inj hc))
  | Except.ok _, Except.error _ => Decidable.isFalse (fun hc => Except.noConfusion hc)
  | Except.error _, Except.ok _ => Decidable.isFalse (fun hc => Except.noConfusion hc)
  | Except.error x, Except.error y =>
    if h : x = y then Decidable.isTrue (by rw [h])
    else Decidable.isFalse (fun hc => h (Except.error.inj hc))

structure SearchHits where
  hits : List (Except String Span)
  totalHits : Nat
deriving DecidableEq, Repr

/-- Modelled from the spec: (§4.5): collectSpans — every decodable hit is
unmarshalled and tag-merged; a malformed document aborts only its own
contribution while the read continues for the remaining hits, and the
first decode error is kept for propagation to the caller. -/
def collectSpans (dotRepl : Char) (hits : List (Except String Span)) :
    List Span × Option String :=
  (hits.filterMap (fun h => h.toOption.map (mergeAllNestedAndElevatedTagsOfSpan dotRepl)),
   hits.findSome? (fun h => match h with | Except.error e => some e | Except.ok _ => none))

/-- Microseconds in one hour: the widening applied to the first-wave
start-time lower bound. -/
def microsPerHour : Int := 3600000000

/-- Modelled from the spec: (§4.5): the bounded read of one trace id.  The
first-wave query carries the supplied lower bound; when the reported total
hit count exceeds the number of hits returned, exactly one follow-up query
is issued whose lower bound is the start time of the last span of the
partial result, and the spans of both waves are concatenated.  A fully
empty hit set yields no trace.  Returns the optional trace, the (trace id,
lower bound) queries issued, and the first decode error if any. -/
def readOne (dotRepl : Char) (backend : String → Int → SearchHits) (id : String)
    (bound0 : Int) : Option Trace × List (String × Int) × Option String :=
  let r1 := backend id bound0
  if r1.hits.isEmpty then (none, [(id, bound0)], none)
  else
    let c1 := collectSpans dotRepl r1.hits
    if r1.hits.length < r1.totalHits then
      match c1.1.getLast? with
      | some lastSpan =>
        let r2 := backend id lastSpan.startTime
        let c2 := collectSpans dotRepl r2.hits
        (some ⟨c1.1 ++ c2.1⟩, [(id, bound0), (id, lastSpan.startTime)], c1.2.orElse (fun _ => c2.2))
      | none => (some ⟨c1.1⟩, [(id, bound0)], c1.2)
    else (some ⟨c1.1⟩, [(id, bound0)], c1.2)

/-- Modelled from the spec: (§4.5, §5): multiRead — a batched wave of
per-trace-id queries whose first-wave lower bound is one hour before the
window start, with at most one follow-up wave per truncated trace id
(batching across distinct ids is abstracted to per-id processing).
Returns the traces (in trace-id order), all (trace id, lower bound)
queries issued, and the first decode error if any. -/
def multiRead (dotRepl : Char) (backend : String → Int → SearchHits)
    (traceIDs : List String) (startTime endTime : Int) :
    List Trace × List (String × Int) × Option String :=
  let bound0 := startTime - microsPerHour
  (traceIDs.filterMap (fun id => (readOne dotRepl backend id bound0).1),
   traceIDs.flatMap (fun id => (readOne dotRepl backend id bound0).2.1),
   traceIDs.findSome? (fun id => (readOne dotRepl backend id bound0).2.2))

/-- Modelled from the spec: (§4.6): GetTraces — a multi-read over the given
trace ids, surfacing the traces found together with the first decode
error encountered, if any. -/
def GetTraces (dotRepl : Char) (backend : String → Int → SearchHits)
    (traceIDs : List String) (startTime endTime : Int) : List Trace × Option String :=
  let r := multiRead dotRepl backend traceIDs startTime endTime
  (r.1, r.2.2)

/-- Render a validation error as the message of the aborted call. -/
def validationErrMessage : ValidationErr → String
  | ValidationErr.ErrServiceNameNotSet => "service name must be set"
  | ValidationErr.ErrStartAndEndTimeNotSet => "start and end time must be set"
  | ValidationErr.ErrStartTimeMinGreaterThanMax => "start time minimum is above maximum"
  | ValidationErr.ErrDurationMinGreaterThanMax => "duration minimum is above maximum"

/-- Modelled from the spec: (§4.6): FindTraces — validate, discover
candidate trace ids via the trace-id aggregation (whose parsed outcome the
search layer supplies), then hydrate via multiRead over the query's time
window; a validation failure, a discovery failure, or a decode error
during hydration each abort the call with an error. -/
def FindTraces (dotRepl : Char) (backend : String → Int → SearchHits)
    (aggOutcome : Except String (List String)) (q : TraceQueryParameters) :
    Except String (List Trace) :=
  match validateQuery q with
  | some e => Except.error (validationErrMessage e)
  | none =>
    match aggOutcome with
    | Except.error e => Except.error e
    | Except.ok ids =>
      let r := multiRead dotRepl backend ids q.startTimeMin q.startTimeMax
      match r.2.2 with
      | some e => Except.error e
      | none => Except.ok r.1

/-- Collecting a batch of decodable hits merges every span and reports no
error. -/
theorem collectSpans_ok (d : Char) (spans : List Span) :
    collectSpans d (spans.map Except.ok) =
      (spans.map (mergeAllNestedAndElevatedTagsOfSpan d), none) := by
  unfold collectSpans
  refine Prod.ext ?_ ?_
  · show List.filterMap _ _ = _
    rw [List.filterMap_map]
    rw [show ((fun h : Except String Span =>
        (Except.toOption h).map (mergeAllNestedAndElevatedTagsOfSpan d)) ∘ Except.ok) =
      some ∘ (mergeAllNestedAndElevatedTagsOfSpan d) from rfl]
    rw [List.filterMap_eq_map]
  · show List.findSome? _ _ = none
    induction spans with
    | nil => rfl
    | cons a t ih => simpa [List.findSome?_cons] using ih

/-- Tag merging does not change the start time of a span. -/
theorem mergeAllNestedAndElevatedTagsOfSpan_startTime (d : Char) (s : Span) :
    (mergeAllNestedAndElevatedTagsOfSpan d s).startTime = s.startTime := rfl

/-- Every query issued by readOne is for the requested trace id. -/
theorem readOne_queries_fst (d : Char) (b : String → Int → SearchHits) (j : String)
    (bound : Int) (q : String × Int) (hq : q ∈ (readOne d b j bound).2.1) : q.1 = j := by
  simp only [readOne] at hq
  split at hq
  · simp only [List.mem_singleton] at hq; rw [hq]
  · split at hq
    · split at hq
      · simp only [List.mem_cons, List.not_mem_nil, or_false] at hq
        rcases hq with h | h <;> rw [h]
      · simp only [List.mem_singleton] at hq; rw [hq]
    · simp only [List.mem_singleton] at hq; rw [hq]

/-- Per-id query filtering over the flattened query log of a multi-read:
when the id occurs exactly once, exactly its own queries survive. -/
theorem filter_flatMap_queries (f : String → List (String × Int))
    (hf : ∀ j q, q ∈ f j → q.1 = j) (ids : List String) (id : String)
    (h : ids.count id = 1) :
    (ids.flatMap f).filter (fun q => q.1 == id) = f id := by
  induction ids with
  | nil => simp at h
  | cons a t ih =>
    rw [List.flatMap_cons, List.filter_append]
    by_cases ha : a = id
    · subst ha
      have hc := List.count_cons_self a t
      have ht : t.count a = 0 := by omega
      have hnotmem : a ∉ t := List.count_eq_zero.mp ht
      have hfa : (f a).filter (fun q => q.1 == a) = f a := by
        apply List.filter_eq_self.mpr
        intro q hq
        simp [hf a q hq]
      have htf : (t.flatMap f).filter (fun q => q.1 == a) = [] := by
        apply List.filter_eq_nil_iff.mpr
        intro q hq
        rcases List.mem_flatMap.mp hq with ⟨j, hj, hqj⟩
        have h1 := hf j q hqj
        have h2 : j ≠ a := fun he => hnotmem (he ▸ hj)
        simp [h1, h2]
      rw [hfa, htf, List.append_nil]
    · have hcnt : t.count id = 1 := by
        rw [List.count_cons] at h
        simp only [beq_iff_eq] at h
        simp only [if_neg ha] at h
        omega
      have hfa : (f a).filter (fun q => q.1 == id) = [] := by
        apply List.filter_eq_nil_iff.mpr
        intro q hq
        simp [hf a q hq, ha]
      rw [hfa, List.nil_append]
      exact ih hcnt

/-- On a truncated all-decodable first wave, readOne issues exactly one
follow-up query anchored at the last returned span's start time and
concatenates the spans of both waves. -/
theorem readOne_followUp (d : Char) (b : String → Int → SearchHits) (id : String)
    (bound0 : Int) (hits1 hits2 : List Span) (total1 total2 : Nat) (lastSp : Span)
    (hb1 : b id bound0 = ⟨hits1.map Except.ok, total1⟩)
    (hne : hits1 ≠ [])
    (htrunc : hits1.length < total1)
    (hlast : hits1.getLast? = some lastSp)
    (hb2 : b id lastSp.startTime = ⟨hits2.map Except.ok, total2⟩) :
    readOne d b id bound0 =
      (some ⟨(hits1 ++ hits2).map (mergeAllNestedAndElevatedTagsOfSpan d)⟩,
       [(id, bound0), (id, lastSp.startTime)], none) := by
  have hie : ((hits1.map Except.ok : List (Except String Span))).isEmpty = false := by
    cases hits1 with
    | nil => exact absurd rfl hne
    | cons a t => rfl
  simp only [readOne, hb1, hie, collectSpans_ok, List.length_map, List.getLast?_map, hlast,
    Option.map_some, Bool.false_eq_true, if_false, htrunc, if_true,
    mergeAllNestedAndElevatedTagsOfSpan_startTime, hb2, List.map_append]
  simp only [Option.map_some']
  simp only [mergeAllNestedAndElevatedTagsOfSpan_startTime, hb2, collectSpans_ok]
  rfl

/-- C2: for any trace id whose first-wave response reports a total hit
count above the number of hits returned, the multi-read issues exactly one
follow-up query for that trace id whose new start-time lower bound equals
the start time of the last span returned in the first wave, and the trace
returned to the caller contains the spans of both waves concatenated. -/
theorem multiRead_followUp (d : Char) (b : String → Int → SearchHits)
    (ids : List String) (id : String) (startTime endTime : Int)
    (hits1 hits2 : List Span) (total1 total2 : Nat) (lastSp : Span)
    (hcount : ids.count id = 1)
    (hb1 : b id (startTime - microsPerHour) = ⟨hits1.map Except.ok, total1⟩)
    (hne : hits1 ≠ [])
    (htrunc : hits1.length < total1)
    (hlast : hits1.getLast? = some lastSp)
    (hb2 : b id lastSp.startTime = ⟨hits2.map Except.ok, total2⟩) :
    (multiRead d b ids startTime endTime).2.1.filter (fun q => q.1 == id) =
      [(id, startTime - microsPerHour), (id, lastSp.startTime)] ∧
    Trace.mk ((hits1 ++ hits2).map (mergeAllNestedAndElevatedTagsOfSpan d)) ∈
      (multiRead d b ids startTime endTime).1 := by
  have hro := readOne_followUp d b id (startTime - microsPerHour) hits1 hits2 total1 total2
    lastSp hb1 hne htrunc hlast hb2
  constructor
  · show (ids.flatMap
        (fun i => (readOne d b i (startTime - microsPerHour)).2.1)).filter
          (fun q => q.1 == id) = _
    rw [filter_flatMap_queries _ (fun j q hq => readOne_queries_fst d b j _ q hq) ids id hcount]
    rw [hro]
  · show _ ∈ ids.filterMap (fun i => (readOne d b i (startTime - microsPerHour)).1)
    apply List.mem_filterMap.mpr
    refine ⟨id, List.count_pos_iff.mp (by omega), ?_⟩
    rw [hro]

/-- A concrete decoded span for the follow-up witness scenario. -/
def witnessSpan1 : Span :=
  { traceID := "testing-id1", spanID := "0", operationName := "op",
    startTime := 1570683600000000, duration := 0,
    tags := [], tag := [], process := { serviceName := "serv", tags := [], tag := [] } }

/-- A second concrete span, for a second trace id. -/
def witnessSpan2 : Span :=
  { witnessSpan1 with traceID := "testing-id2" }

/-- A concrete backend: every query for testing-id1 reports 2 total hits
but returns a single span, so the first wave is truncated; queries for any
other id return one span with 1 total hit. -/
def witnessBackend : String → Int → SearchHits := fun id _ =>
  if id = "testing-id1" then ⟨[Except.ok witnessSpan1], 2⟩
  else ⟨[Except.ok witnessSpan2], 1⟩

/-- Concrete instantiation of the follow-up behavior: the query log for
testing-id1 holds exactly the first-wave query and one follow-up anchored
at the last returned span's start time, and the returned trace contains
the concatenated spans of both waves. -/
theorem multiRead_followUp_witness :
    (multiRead '@' witnessBackend ["testing-id1", "testing-id2"]
        1570683600000000 1570683600000000).2.1.filter (fun q => q.1 == "testing-id1") =
      [("testing-id1", 1570683600000000 - microsPerHour),
       ("testing-id1", witnessSpan1.startTime)] ∧
    Trace.mk (([witnessSpan1] ++ [witnessSpan1]).map (mergeAllNestedAndElevatedTagsOfSpan '@')) ∈
      (multiRead '@' witnessBackend ["testing-id1", "testing-id2"]
        1570683600000000 1570683600000000).1 :=
  multiRead_followUp '@' witnessBackend ["testing-id1", "testing-id2"] "testing-id1"
    1570683600000000 1570683600000000 [witnessSpan1] [witnessSpan1] 2 2 witnessSpan1
    (by decide) rfl (by decide) (by decide) rfl rfl

/-- collectSpans splits over concatenated hit lists, keeping the first
error. -/
theorem collectSpans_append (d : Char) (l1 l2 : List (Except String Span)) :
    collectSpans d (l1 ++ l2) =
      ((collectSpans d l1).1 ++ (collectSpans d l2).1,
       ((collectSpans d l1).2).or ((collectSpans d l2).2)) := by
  unfold collectSpans
  refine Prod.ext ?_ ?_
  · exact List.filterMap_append _ _ _
  · exact List.findSome?_append

/-- collectSpans of a single undecodable hit. -/
theorem collectSpans_error (d : Char) (e : String) :
    collectSpans d [Except.error e] = ([], some e) := rfl

/-- Collecting a batch with one undecodable document in the middle returns
the decodable rest and surfaces the decode error. -/
theorem collectSpans_with_error (d : Char) (pre post : List Span) (e : String) :
    collectSpans d (pre.map Except.ok ++ [Except.error e] ++ post.map Except.ok) =
      ((pre ++ post).map (mergeAllNestedAndElevatedTagsOfSpan d), some e) := by
  rw [collectSpans_append, collectSpans_append, collectSpans_ok, collectSpans_ok,
    collectSpans_error]
  simp [List.map_append]

/-- Cons-shaped restatement of collectSpans_with_error. -/
theorem collectSpans_with_error_cons (d : Char) (pre post : List Span) (e : String) :
    collectSpans d (pre.map Except.ok ++ Except.error e :: post.map Except.ok) =
      ((pre ++ post).map (mergeAllNestedAndElevatedTagsOfSpan d), some e) := by
  have h := collectSpans_with_error d pre post e
  rw [List.append_assoc, List.singleton_append] at h
  exact h

/-- readOne surfaces the decode error of a malformed document. -/
theorem readOne_decode_error (d : Char) (b : String → Int → SearchHits)
    (id : String) (bound0 : Int) (pre post : List Span) (emsg : String) (total : Nat)
    (hb : b id bound0 =
      ⟨pre.map Except.ok ++ [Except.error emsg] ++ post.map Except.ok, total⟩) :
    (readOne d b id bound0).2.2 = some emsg := by
  have hie : ((pre.map Except.ok ++ [Except.error emsg] ++ post.map Except.ok :
      List (Except String Span))).isEmpty = false := by
    cases pre <;> rfl
  simp only [readOne, hb, hie, Bool.false_eq_true, if_false]
  split
  · split <;> simp [collectSpans_with_error, collectSpans_with_error_cons]
  · simp [collectSpans_with_error, collectSpans_with_error_cons]

/-- C5: when a batch of search hits contains a malformed span document,
only that document's decode fails — the rest of the batch is still
collected — and the decode error is additionally propagated: GetTraces and
FindTraces over any hit set containing at least one undecodable document
return a non-nil error. -/
theorem getTraces_decode_error (d : Char) (b : String → Int → SearchHits)
    (ids : List String) (id : String) (s e : Int) (q : TraceQueryParameters)
    (aggIds : List String) (pre post : List Span) (emsg : String) (total : Nat)
    (hb : b id (s - microsPerHour) =
      ⟨pre.map Except.ok ++ [Except.error emsg] ++ post.map Except.ok, total⟩)
    (hmem : id ∈ ids)
    (hq : validateQuery q = none)
    (hqs : q.startTimeMin = s)
    (haggmem : id ∈ aggIds) :
    (collectSpans d (pre.map Except.ok ++ [Except.error emsg] ++ post.map Except.ok)).1 =
      (pre ++ post).map (mergeAllNestedAndElevatedTagsOfSpan d) ∧
    (collectSpans d (pre.map Except.ok ++ [Except.error emsg] ++ post.map Except.ok)).2 =
      some emsg ∧
    (GetTraces d b ids s e).2 ≠ none ∧
    (FindTraces d b (Except.ok aggIds) q).isOk = false := by
  have hcol := collectSpans_with_error d pre post emsg
  have hro := readOne_decode_error d b id (s - microsPerHour) pre post emsg total hb
  have hfind : ∀ (l : List String), id ∈ l →
      l.findSome? (fun i => (readOne d b i (s - microsPerHour)).2.2) ≠ none := by
    intro l hmem2 hnone
    have hn := (List.findSome?_eq_none_iff.mp hnone) id hmem2
    rw [hro] at hn
    exact Option.noConfusion hn
  refine ⟨by rw [hcol], by rw [hcol], ?_, ?_⟩
  · show (multiRead d b ids s e).2.2 ≠ none
    exact hfind ids hmem
  · simp only [FindTraces, hq]
    have hmr : (multiRead d b aggIds q.startTimeMin q.startTimeMax).2.2 ≠ none := by
      show aggIds.findSome?
        (fun i => (readOne d b i (q.startTimeMin - microsPerHour)).2.2) ≠ none
      rw [hqs]
      exact hfind aggIds haggmem
    rcases hopt : (multiRead d b aggIds q.startTimeMin q.startTimeMax).2.2 with _ | e2
    · exact absurd hopt hmr
    · rfl

/-- A backend returning a single undecodable document for every query. -/
def badDocBackend : String → Int → SearchHits := fun _ _ =>
  ⟨[Except.error "invalid span"], 1⟩

/-- Concrete instantiation of decode-error propagation: a hit set of one
undecodable document yields an empty collected batch, the surfaced decode
error, a non-nil GetTraces error, and a failed FindTraces call. -/
theorem getTraces_decode_error_witness :
    (collectSpans '@' (([] : List Span).map Except.ok ++ [Except.error "invalid span"] ++
        ([] : List Span).map Except.ok)).1 =
      (([] : List Span) ++ []).map (mergeAllNestedAndElevatedTagsOfSpan '@') ∧
    (collectSpans '@' (([] : List Span).map Except.ok ++ [Except.error "invalid span"] ++
        ([] : List Span).map Except.ok)).2 = some "invalid span" ∧
    (GetTraces '@' badDocBackend ["testing-id"] 1570683600000000 1570687200000000).2 ≠ none ∧
    (FindTraces '@' badDocBackend (Except.ok ["testing-id"])
      { serviceName := "serv", operationName := "", tags := [],
        startTimeMin := 1570683600000000, startTimeMax := 1570687200000000,
        durationMin := 0, durationMax := 0, numTraces := 20 }).isOk = false :=
  getTraces_decode_error '@' badDocBackend ["testing-id"] "testing-id"
    1570683600000000 1570687200000000
    { serviceName := "serv", operationName := "", tags := [],
      startTimeMin := 1570683600000000, startTimeMax := 1570687200000000,
      durationMin := 0, durationMax := 0, numTraces := 20 }
    ["testing-id"] [] [] "invalid span" 1
    rfl (by decide) (by decide) rfl (by decide)
